import Mathlib

/-!
Verification development for the prototype work-manager daemon
(src/proto-work-manager.py).

The program is shallowly embedded: the filesystem is an association list
from path to content, Python exceptions become an explicit error type,
external library calls (json.loads from the Python standard library, the
pika broker client, time.sleep) are modelled as oracle parameters whose
results are quantified over, and the side effects of a run (log lines,
prints, publish calls, close calls) are collected into an event trace.
The control structure of get_jobs, get_messaging_connection_string and
main — including the try/finally nesting, the exact exception classes
suppressed by the close guards, and the single KeyboardInterrupt handler
around the while loop — is translated line by line from the source.
-/

/-- Python exception values relevant to this program.  Library-raised
exceptions (json.JSONDecodeError, pika's AMQPConnectionError,
ChannelClosed, ConnectionClosed, StreamLostError) are constructors here so
that oracles can report them and handlers can match on them. -/
inductive PyError where
  | runtimeError (msg : String)
  | jsonDecodeError
  | keyError (k : String)
  | typeError (msg : String)
  | nameError
  | amqpConnectionError
  | channelClosed
  | connectionClosed
  | streamLostError
  | keyboardInterrupt
  deriving DecidableEq, Repr

/-- Result of a Python call that returns no value: normal return or a
raised exception. -/
inductive PyResult where
  | ok
  | raise (e : PyError)
  deriving DecidableEq, Repr

/-- JSON values, the shape of data produced by json.loads.  Numbers are
modelled as integers (the job records of this program are opaque
payloads; no arithmetic is performed on them). -/
inductive Json where
  | null
  | bool (b : Bool)
  | num (n : Int)
  | str (s : String)
  | arr (xs : List Json)
  | obj (fields : List (String × Json))
  deriving Repr

/-- The local filesystem, restricted to what the program touches: a map
from file path to file content. -/
structure FS where
  files : List (String × String)
  deriving DecidableEq, Repr

/-- os.path.isfile. -/
def FS.isFile (fs : FS) (p : String) : Bool :=
  (fs.files.lookup p).isSome

/-- open(p).read(): the content of file p, when it exists. -/
def FS.read (fs : FS) (p : String) : Option String :=
  fs.files.lookup p

/-- os.unlink: remove the file at path p. -/
def FS.unlink (fs : FS) (p : String) : FS :=
  ⟨fs.files.filter (fun e => e.1 != p)⟩

/-- Python subscript job_dict[k]: field lookup on a dict, KeyError when
the key is absent, TypeError when the value is not subscriptable by a
string. -/
def Json.subscript (j : Json) (k : String) : Except PyError Json :=
  match j with
  | .obj fields =>
    match fields.lookup k with
    | some v => .ok v
    | none => .error (.keyError k)
  | .arr _ => .error (.typeError "list indices must be integers")
  | .str _ => .error (.typeError "string indices must be integers")
  | _ => .error (.typeError "object is not subscriptable")

/-- Python iteration (for job in v): a list yields its elements in order,
a dict yields its keys, a string yields its characters, anything else
raises TypeError. -/
def Json.pyIter (j : Json) : Except PyError (List Json) :=
  match j with
  | .arr xs => .ok xs
  | .obj fields => .ok (fields.map (fun f => Json.str f.1))
  | .str s => .ok (s.data.map (fun c => Json.str (String.singleton c)))
  | _ => .error (.typeError "object is not iterable")

/-- Hexadecimal digit, lower case, as produced by json.dumps for control
characters. -/
def hexDigit (n : Nat) : Char :=
  if n < 10 then Char.ofNat (48 + n) else Char.ofNat (87 + n)

/-- Escaping of one character inside a JSON string literal as json.dumps
with ensure_ascii=False performs it: quote, backslash and control
characters are escaped, every other character — in particular every
non-ASCII character — is emitted unchanged. -/
def escapeJsonChar (c : Char) : String :=
  if c = '"' then "\\\""
  else if c = '\\' then "\\\\"
  else if c = '\n' then "\\n"
  else if c = '\t' then "\\t"
  else if c = '\r' then "\\r"
  else if c.toNat = 8 then "\\b"
  else if c.toNat = 12 then "\\f"
  else if c.toNat < 32 then
    "\\u00" ++ String.mk [hexDigit (c.toNat / 16), hexDigit (c.toNat % 16)]
  else String.singleton c

/-- Escaping of a whole string for a JSON string literal. -/
def escapeJsonString (s : String) : String :=
  String.join (s.data.map escapeJsonChar)

mutual

/-- Model of json.dumps(job, ensure_ascii=False) with Python's default
separators: comma-space between items, colon-space between a key and its
value. -/
def Json.dumps : Json → String
  | .null => "null"
  | .bool true => "true"
  | .bool false => "false"
  | .num n => toString n
  | .str s => "\"" ++ escapeJsonString s ++ "\""
  | .arr xs => "[" ++ Json.dumpsList xs ++ "]"
  | .obj fields => "\x7b" ++ Json.dumpsFields fields ++ "\x7d"

/-- Comma-separated serialization of the elements of a JSON array. -/
def Json.dumpsList : List Json → String
  | [] => ""
  | [j] => Json.dumps j
  | j :: rest => Json.dumps j ++ ", " ++ Json.dumpsList rest

/-- Comma-separated serialization of the fields of a JSON object. -/
def Json.dumpsFields : List (String × Json) → String
  | [] => ""
  | [f] => "\"" ++ escapeJsonString f.1 ++ "\": " ++ Json.dumps f.2
  | f :: rest =>
    "\"" ++ escapeJsonString f.1 ++ "\": " ++ Json.dumps f.2 ++ ", " ++
      Json.dumpsFields rest

end

/-- get_jobs(job_filename) from the source, with the filesystem passed
explicitly and json.loads supplied as a parse oracle.  The branch
structure mirrors the source: the body runs only when job_filename is
truthy (in Python, a non-None, non-empty string) and names an existing
file; the content is read, parsed, subscripted at the field named jobs,
iterated into the result list, and only then — after all steps that can
raise — is the file unlinked. -/
def get_jobs (parse : String → Except PyError Json) (fs : FS) :
    Option String → Except PyError (List Json) × FS
  | none => (.ok [], fs)
  | some fname =>
    if fname = "" then (.ok [], fs)
    else
      match fs.read fname with
      | none => (.ok [], fs)
      | some data =>
        match parse data with
        | .error e => (.error e, fs)
        | .ok job_dict =>
          match job_dict.subscript "jobs" with
          | .error e => (.error e, fs)
          | .ok v =>
            match v.pyIter with
            | .error e => (.error e, fs)
            | .ok jobs => (.ok jobs, fs.unlink fname)

/-- Name of the environment variable holding the broker connection
string. -/
def connection_var : String := "PROTO_MESSAGING_SERVICE_CONNECTION_STRING"

/-- Name of the environment variable holding the work queue name. -/
def work_queue_var : String := "PROTO_WORK_QUEUE"

/-- Name of the environment variable holding the status queue name. -/
def status_queue_var : String := "PROTO_STATUS_QUEUE"

/-- os.environ.get(k, None) followed by Python truthiness: an unset
variable and an empty string are both falsy. -/
def pyGetenvTruthy (env : List (String × String)) (k : String) :
    Option String :=
  match env.lookup k with
  | none => none
  | some s => if s = "" then none else some s

/-- get_messaging_connection_string from the source: reads the connection
string from the environment and raises RuntimeError when it is unset or
empty. -/
def get_messaging_connection_string (env : List (String × String)) :
    Except PyError String :=
  match pyGetenvTruthy env connection_var with
  | none =>
    .error (.runtimeError
      ("You must specify " ++ connection_var ++ " in the environment"))
  | some s => .ok s

/-- One basic_publish invocation with the arguments the source passes:
empty exchange, the work queue as routing key, the serialized job as
body, BasicProperties(delivery_mode=2), mandatory=True. -/
structure PublishCall where
  exchange : String
  routing_key : String
  body : String
  delivery_mode : Nat
  mandatory : Bool
  deriving DecidableEq, Repr

/-- Observable effects of a run: logger.info lines, print lines, publish
calls on the channel, and the close calls the finally blocks issue. -/
inductive Event where
  | log (msg : String)
  | printed (msg : String)
  | publishCall (c : PublishCall)
  | closeChannelCall
  | closeConnectionCall
  deriving DecidableEq, Repr

/-- The environment's behavior during one loop cycle.  Each field is the
result of one external call the cycle can make: pika.BlockingConnection,
connection.channel(), channel.queue_declare, channel.basic_publish (by
position within the cycle: true means routed, false means returned
unroutable), channel.close(), connection.close(), and sleep(60).  A
raised result models the call raising that exception — including an
asynchronous KeyboardInterrupt delivered during the call. -/
structure CycleOracle where
  connect : PyResult
  openChannel : PyResult
  declareQueue : PyResult
  publish : Nat → Except PyError Bool
  channelClose : PyResult
  connectionClose : PyResult
  sleepResult : PyResult

/-- The publish call the source constructs for one job. -/
def mkPublishCall (wq : String) (j : Json) : PublishCall :=
  ⟨"", wq, Json.dumps j, 2, true⟩

/-- The for-loop over jobs (source lines 201-212): serialize each job,
call basic_publish, print Queued Message on a routed result and Returned
Message on an unroutable one, and keep going; a raised exception stops
the loop and escapes.  i is the position of the next publish call in the
cycle's oracle. -/
def publishJobs (wq : String) (pub : Nat → Except PyError Bool) :
    Nat → List Json → Option PyError × List Event
  | _, [] => (none, [])
  | i, j :: rest =>
    match pub i with
    | .error e => (some e, [.publishCall (mkPublishCall wq j)])
    | .ok true =>
      let r := publishJobs wq pub (i + 1) rest
      (r.1, .publishCall (mkPublishCall wq j) ::
        .printed ("Queued Message = " ++ Json.dumps j) :: r.2)
    | .ok false =>
      let r := publishJobs wq pub (i + 1) rest
      (r.1, .publishCall (mkPublishCall wq j) ::
        .printed ("Returned Message = " ++ Json.dumps j) :: r.2)

/-- Mutable state the while loop threads between cycles: the filesystem,
and whether the local variables connection and channel are bound.  They
are function locals of main, so a binding survives into later cycles and
an unbound name raises NameError when the finally blocks call close on
it. -/
structure LoopState where
  fs : FS
  connBound : Bool
  chanBound : Bool
  deriving DecidableEq, Repr

/-- One guarded close from a finally block (source lines 216-219 and
223-226): when the variable is unbound the attribute access raises
NameError with no call made; otherwise close is called, its result given
by the oracle, and exactly one exception class is suppressed by the
except clause. -/
def guardedClose (bound : Bool) (res : PyResult) (suppressed : PyError)
    (callEv : Event) : Option PyError × List Event :=
  if bound then
    match res with
    | .ok => (none, [callEv])
    | .raise e => (if e = suppressed then none else some e, [callEv])
  else (some .nameError, [])

/-- Python finally semantics: an exception raised by the finally block
replaces whatever the body was propagating; otherwise the body's
exception (if any) continues. -/
def applyFinally (bodyErr closeErr : Option PyError) : Option PyError :=
  match closeErr with
  | some e => some e
  | none => bodyErr

/-- Body of the inner try (source lines 196-212), entered after the
connection was established: open a channel, declare the durable work
queue, load the jobs, publish them all.  Returns the escaping exception
if any, the updated loop state, and the events emitted. -/
def innerBody (parse : String → Except PyError Json)
    (jf : Option String) (wq : String) (o : CycleOracle) (st : LoopState) :
    Option PyError × LoopState × List Event :=
  match o.openChannel with
  | .raise e => (some e, st, [])
  | .ok =>
    let st1 : LoopState := { st with chanBound := true }
    match o.declareQueue with
    | .raise e => (some e, st1, [])
    | .ok =>
      let g := get_jobs parse st1.fs jf
      match g.1 with
      | .error e => (some e, { st1 with fs := g.2 }, [])
      | .ok jobs =>
        let p := publishJobs wq o.publish 0 jobs
        (p.1, { st1 with fs := g.2 }, p.2)

/-- The inner try/finally (source lines 194-219): the body above, then
the guarded channel close, whose ChannelClosed is suppressed and whose
other exceptions replace the body's. -/
def innerBlock (parse : String → Except PyError Json)
    (jf : Option String) (wq : String) (o : CycleOracle) (st : LoopState) :
    Option PyError × LoopState × List Event :=
  let b := innerBody parse jf wq o st
  let c := guardedClose b.2.1.chanBound o.channelClose PyError.channelClosed
    Event.closeChannelCall
  (applyFinally b.1 c.1, b.2.1, b.2.2 ++ c.2)

/-- One full cycle of the while loop's try/finally (source lines
190-226): establish the connection, run the inner block, then the
guarded connection close, whose ConnectionClosed is suppressed and whose
other exceptions replace the body's. -/
def runCycle (parse : String → Except PyError Json)
    (jf : Option String) (wq : String) (o : CycleOracle) (st : LoopState) :
    Option PyError × LoopState × List Event :=
  let b :=
    match o.connect with
    | .raise e => (some e, st, ([] : List Event))
    | .ok => innerBlock parse jf wq o { st with connBound := true }
  let c := guardedClose b.2.1.connBound o.connectionClose
    PyError.connectionClosed Event.closeConnectionCall
  (applyFinally b.1 c.1, b.2.1, b.2.2 ++ c.2)

/-- How a run of the while loop ends, within the supplied schedule of
cycle oracles: still running when the schedule is exhausted (the loop
has no normal exit), or exited by an exception propagating out of the
loop body or the sleep. -/
inductive LoopOutcome where
  | running
  | exited (e : PyError)
  deriving DecidableEq, Repr

/-- The while True loop (source lines 189-228): run a cycle; an
exception escaping it exits the loop; otherwise sleep(60), whose raised
exception (a KeyboardInterrupt delivered during the wait) also exits the
loop; otherwise the next cycle runs with the next oracle. -/
def runLoop (parse : String → Except PyError Json)
    (jf : Option String) (wq : String) :
    List CycleOracle → LoopState → LoopOutcome × LoopState × List Event
  | [], st => (.running, st, [])
  | o :: rest, st =>
    let c := runCycle parse jf wq o st
    match c.1 with
    | some e => (.exited e, c.2.1, c.2.2)
    | none =>
      match o.sleepResult with
      | .raise e => (.exited e, c.2.1, c.2.2)
      | .ok =>
        let r := runLoop parse jf wq rest c.2.1
        (r.1, r.2.1, c.2.2 ++ r.2.2)

/-- How main ends within the supplied schedule: still in the loop,
returned normally, or terminated by an uncaught exception. -/
inductive MainOutcome where
  | running
  | finished
  | raised (e : PyError)
  deriving DecidableEq, Repr

namespace Proto

/-- main from the source: check PROTO_WORK_QUEUE and PROTO_STATUS_QUEUE
(RuntimeError when falsy), read the connection string, log Beginning
Processing, run the loop, and catch exactly KeyboardInterrupt around it,
logging Terminated Processing only on that path.  Command-line parsing
and logging setup are external collaborators; the chosen job filename is
a parameter.  The name lives in a namespace because a root-level main is
reserved. -/
def main (env : List (String × String))
    (parse : String → Except PyError Json) (job_filename : Option String)
    (oracles : List CycleOracle) (fs : FS) : MainOutcome × List Event :=
  match pyGetenvTruthy env work_queue_var with
  | none =>
    (.raised (.runtimeError
      ("You must specify " ++ work_queue_var ++ " in the environment")), [])
  | some wq =>
    match pyGetenvTruthy env status_queue_var with
    | none =>
      (.raised (.runtimeError
        ("You must specify " ++ status_queue_var ++ " in the environment")),
        [])
    | some _ =>
      match get_messaging_connection_string env with
      | .error e => (.raised e, [])
      | .ok _ =>
        let r := runLoop parse job_filename wq oracles ⟨fs, false, false⟩
        match r.1 with
        | .running => (.running, .log "Beginning Processing" :: r.2.2)
        | .exited e =>
          if e = .keyboardInterrupt then
            (.finished, .log "Beginning Processing" ::
              (r.2.2 ++ [.log "Terminated Processing"]))
          else (.raised e, .log "Beginning Processing" :: r.2.2)

end Proto

/-! ## Helper lemmas -/

theorem lookup_filter_out (p : String) (l : List (String × String)) :
    (l.filter (fun e => e.1 != p)).lookup p = none := by
  induction l with
  | nil => rfl
  | cons hd tl ih =>
    by_cases h : hd.1 = p
    · simp [List.filter_cons, h, ih]
    · have hb : (hd.1 != p) = true := by simpa [bne_iff_ne] using h
      have hp : (p == hd.1) = false := by
        simp only [beq_eq_false_iff_ne]
        exact fun hh => h hh.symm
      simp [List.filter_cons, hb, List.lookup, hp, ih]

theorem FS.isFile_unlink_self (fs : FS) (p : String) :
    (fs.unlink p).isFile p = false := by
  simp [FS.isFile, FS.unlink, lookup_filter_out]

theorem FS.isFile_of_read (fs : FS) (p : String) (d : String)
    (h : fs.read p = some d) : fs.isFile p = true := by
  unfold FS.isFile
  unfold FS.read at h
  rw [h]
  rfl

/-! ## Concrete fixtures used by witnesses and counterexamples -/

/-- An environment holding all three required variables. -/
def envFull : List (String × String) :=
  [("PROTO_WORK_QUEUE", "work"), ("PROTO_STATUS_QUEUE", "status"),
   ("PROTO_MESSAGING_SERVICE_CONNECTION_STRING", "amqp://u:p@h:5672")]

/-- A parse oracle for runs that never read a job file. -/
def parseNull : String → Except PyError Json := fun _ => .ok Json.null

/-- A parse oracle where json.loads raises: malformed content. -/
def parseFail : String → Except PyError Json := fun _ => .error .jsonDecodeError

/-- A parse oracle yielding a well-formed document with two job records
under the jobs field. -/
def parseTwoJobs : String → Except PyError Json :=
  fun _ => .ok (Json.obj [("jobs", Json.arr [Json.num 1, Json.num 2])])

/-- A parse oracle yielding well-formed JSON that lacks the jobs wrapper
field. -/
def parseNoWrapper : String → Except PyError Json :=
  fun _ => .ok (Json.obj [("tasks", Json.null)])

/-- An empty filesystem. -/
def fsEmpty : FS := ⟨[]⟩

/-- A filesystem holding one job file. -/
def fsJobs : FS := ⟨[("jobs.json", "job file content")]⟩

/-! ## C5 -/

/-- C5: for a job file whose parsed content carries N well-formed job
records under the jobs wrapper field, get_jobs returns exactly those N
records in their original order, and after it returns the file no longer
exists on the filesystem. -/
theorem load_returns_records_and_deletes_file
    (parse : String → Except PyError Json) (fs : FS) (fname data : String)
    (flds : List (String × Json)) (jobs : List Json)
    (h0 : fname ≠ "") (h1 : fs.read fname = some data)
    (h2 : parse data = .ok (Json.obj flds))
    (h3 : flds.lookup "jobs" = some (Json.arr jobs)) :
    get_jobs parse fs (some fname) = (.ok jobs, fs.unlink fname) ∧
    (fs.unlink fname).isFile fname = false := by
  constructor
  · simp [get_jobs, h0, h1, h2, Json.subscript, h3, Json.pyIter]
  · exact FS.isFile_unlink_self fs fname

/-- C5 witness at a concrete two-record job file. -/
theorem load_returns_records_and_deletes_file_witness :
    get_jobs parseTwoJobs fsJobs (some "jobs.json") =
      (.ok [Json.num 1, Json.num 2], fsJobs.unlink "jobs.json") ∧
    (fsJobs.unlink "jobs.json").isFile "jobs.json" = false :=
  load_returns_records_and_deletes_file parseTwoJobs fsJobs "jobs.json"
    "job file content" [("jobs", Json.arr [Json.num 1, Json.num 2])]
    [Json.num 1, Json.num 2] (by decide) rfl rfl rfl

/-! ## C6 -/

/-- C6: for an unset job-file path (None or the falsy empty string) or a
path that does not reference an existing file, get_jobs returns an empty
batch and raises no error. -/
theorem load_missing_path_empty
    (parse : String → Except PyError Json) (fs : FS) (p : Option String)
    (h : p = none ∨ p = some "" ∨ ∃ f, p = some f ∧ fs.isFile f = false) :
    get_jobs parse fs p = (.ok [], fs) := by
  rcases h with h | h | ⟨f, hf, hfile⟩
  · subst h; rfl
  · subst h; rfl
  · subst hf
    have hread : fs.read f = none := by
      unfold FS.isFile at hfile
      unfold FS.read
      cases hh : fs.files.lookup f with
      | none => rfl
      | some d => rw [hh] at hfile; simp at hfile
    by_cases he : f = ""
    · simp [get_jobs, he]
    · simp [get_jobs, he, hread]

/-- C6 witness at a path absent from the filesystem. -/
theorem load_missing_path_empty_witness :
    get_jobs parseNull fsEmpty (some "no-such-file.json") =
      (.ok [], fsEmpty) :=
  load_missing_path_empty parseNull fsEmpty (some "no-such-file.json")
    (Or.inr (Or.inr ⟨"no-such-file.json", rfl, rfl⟩))

/-! ## C10 -/

/-- C10: when the job file exists and its content is well-formed JSON on
which subscripting the jobs wrapper field raises (the field is absent),
get_jobs propagates that error and the file is not deleted: the
filesystem is returned unchanged and the file still exists. -/
theorem load_missing_wrapper_keeps_file
    (parse : String → Except PyError Json) (fs : FS) (fname data : String)
    (d : Json) (e : PyError)
    (h0 : fname ≠ "") (h1 : fs.read fname = some data)
    (h2 : parse data = .ok d) (h3 : d.subscript "jobs" = .error e) :
    get_jobs parse fs (some fname) = (.error e, fs) ∧
    fs.isFile fname = true := by
  constructor
  · simp [get_jobs, h0, h1, h2, h3]
  · exact FS.isFile_of_read fs fname data h1

/-- C10 witness: an object document without the jobs field raises
KeyError and the file survives. -/
theorem load_missing_wrapper_keeps_file_witness :
    get_jobs parseNoWrapper fsJobs (some "jobs.json") =
      (.error (.keyError "jobs"), fsJobs) ∧
    fsJobs.isFile "jobs.json" = true :=
  load_missing_wrapper_keeps_file parseNoWrapper fsJobs "jobs.json"
    "job file content" (Json.obj [("tasks", Json.null)]) (.keyError "jobs")
    (by decide) rfl rfl rfl

/-! ## C2 -/

/-- C2 counterexample: with a malformed job file, get_jobs raises the
parse error, but — contrary to the claim — the source file has not been
deleted at the point the error is raised: it is still on the
filesystem. -/
theorem malformed_file_not_deleted :
    (get_jobs parseFail fsJobs (some "jobs.json")).1 =
      Except.error PyError.jsonDecodeError ∧
    (get_jobs parseFail fsJobs (some "jobs.json")).2.isFile "jobs.json" =
      true :=
  ⟨rfl, rfl⟩

/-- C2 amended: when the job file exists but its content is malformed,
get_jobs raises the parse error (it is not silently swallowed), and at
the point the error is raised the source file has NOT been deleted: the
filesystem is unchanged and the file still exists (deletion only happens
after a fully successful read in the source). -/
theorem malformed_file_error_file_survives
    (parse : String → Except PyError Json) (fs : FS) (fname data : String)
    (e : PyError)
    (h0 : fname ≠ "") (h1 : fs.read fname = some data)
    (h2 : parse data = .error e) :
    get_jobs parse fs (some fname) = (.error e, fs) ∧
    fs.isFile fname = true := by
  constructor
  · simp [get_jobs, h0, h1, h2]
  · exact FS.isFile_of_read fs fname data h1

/-- C2 amended witness at the malformed fixture. -/
theorem malformed_file_error_file_survives_witness :
    get_jobs parseFail fsJobs (some "jobs.json") =
      (.error .jsonDecodeError, fsJobs) ∧
    fsJobs.isFile "jobs.json" = true :=
  malformed_file_error_file_survives parseFail fsJobs "jobs.json"
    "job file content" .jsonDecodeError (by decide) rfl rfl

/-! ## C9 -/

/-- C9: if any of the three required configuration values (work-queue
name, status-queue name, broker connection string) is absent or falsy in
the environment, main raises RuntimeError at startup and the event trace
is empty: the Beginning Processing event is never logged and no cycle of
the publish loop runs. -/
theorem missing_config_fatal
    (env : List (String × String)) (parse : String → Except PyError Json)
    (jf : Option String) (oracles : List CycleOracle) (fs : FS)
    (h : pyGetenvTruthy env work_queue_var = none ∨
         pyGetenvTruthy env status_queue_var = none ∨
         pyGetenvTruthy env connection_var = none) :
    (∃ m, (Proto.main env parse jf oracles fs).1 =
      MainOutcome.raised (.runtimeError m)) ∧
    (Proto.main env parse jf oracles fs).2 = [] := by
  rcases h with h | h | h
  · refine ⟨⟨"You must specify " ++ work_queue_var ++ " in the environment",
      ?_⟩, ?_⟩ <;> simp [Proto.main, h]
  · cases hw : pyGetenvTruthy env work_queue_var with
    | none =>
      refine ⟨⟨"You must specify " ++ work_queue_var ++ " in the environment",
        ?_⟩, ?_⟩ <;> simp [Proto.main, hw]
    | some wq =>
      refine ⟨⟨"You must specify " ++ status_queue_var ++
        " in the environment", ?_⟩, ?_⟩ <;> simp [Proto.main, hw, h]
  · cases hw : pyGetenvTruthy env work_queue_var with
    | none =>
      refine ⟨⟨"You must specify " ++ work_queue_var ++ " in the environment",
        ?_⟩, ?_⟩ <;> simp [Proto.main, hw]
    | some wq =>
      cases hs : pyGetenvTruthy env status_queue_var with
      | none =>
        refine ⟨⟨"You must specify " ++ status_queue_var ++
          " in the environment", ?_⟩, ?_⟩ <;> simp [Proto.main, hw, hs]
      | some sq =>
        have hg : get_messaging_connection_string env =
            .error (.runtimeError ("You must specify " ++ connection_var ++
              " in the environment")) := by
          simp [get_messaging_connection_string, h]
        refine ⟨⟨"You must specify " ++ connection_var ++
          " in the environment", ?_⟩, ?_⟩ <;> simp [Proto.main, hw, hs, hg]

/-- C9 witness at an empty environment. -/
theorem missing_config_fatal_witness :
    (∃ m, (Proto.main [] parseNull none [] fsEmpty).1 =
      MainOutcome.raised (.runtimeError m)) ∧
    (Proto.main [] parseNull none [] fsEmpty).2 = [] :=
  missing_config_fatal [] parseNull none [] fsEmpty (Or.inl rfl)

/-! ## More fixtures: cycle oracles -/

/-- A cycle where establishing the connection fails and everything else
would behave normally. -/
def oracleConnFail : CycleOracle :=
  { connect := .raise .amqpConnectionError
    openChannel := .ok
    declareQueue := .ok
    publish := fun _ => .ok true
    channelClose := .ok
    connectionClose := .ok
    sleepResult := .ok }

/-- A cycle where the channel close raises a non-suppressed exception. -/
def oracleCloseFail : CycleOracle :=
  { connect := .ok
    openChannel := .ok
    declareQueue := .ok
    publish := fun _ => .ok true
    channelClose := .raise .streamLostError
    connectionClose := .ok
    sleepResult := .ok }

/-- A cycle where a KeyboardInterrupt is delivered during the second
basic_publish call. -/
def oracleInterruptMidPublish : CycleOracle :=
  { connect := .ok
    openChannel := .ok
    declareQueue := .ok
    publish := fun i => if i = 0 then .ok true else .error .keyboardInterrupt
    channelClose := .ok
    connectionClose := .ok
    sleepResult := .ok }

/-- A cycle that completes and whose wait is interrupted. -/
def oracleSleepInterrupt : CycleOracle :=
  { connect := .ok
    openChannel := .ok
    declareQueue := .ok
    publish := fun _ => .ok true
    channelClose := .ok
    connectionClose := .ok
    sleepResult := .raise .keyboardInterrupt }

/-- A benign cycle where the broker returns the first message as
unroutable and routes the second. -/
def oracleReject : CycleOracle :=
  { connect := .ok
    openChannel := .ok
    declareQueue := .ok
    publish := fun i => .ok (i != 0)
    channelClose := .ok
    connectionClose := .ok
    sleepResult := .ok }

/-! ## C1 -/

/-- A cycle where the connection opens but creating the channel on it
fails; everything else would behave normally. -/
def oracleChannelFail : CycleOracle :=
  { connect := .ok
    openChannel := .raise .amqpConnectionError
    declareQueue := .ok
    publish := fun _ => .ok true
    channelClose := .ok
    connectionClose := .ok
    sleepResult := .ok }

/-- An exception propagating from a body survives its guarded close:
when the variable is unbound the guard raises NameError, when the close
raises the one suppressed class the body error continues, and when it
raises any other class that error replaces the body error — in every
case some exception is still propagating afterwards. -/
theorem applyFinally_guardedClose_some (e : PyError) (bound : Bool)
    (res : PyResult) (sup : PyError) (ev : Event) :
    ∃ e2, applyFinally (some e) (guardedClose bound res sup ev).1 =
      some e2 := by
  by_cases hb : bound
  · cases res with
    | ok => exact ⟨e, by simp [guardedClose, hb, applyFinally]⟩
    | raise ec =>
      by_cases hec : ec = sup
      · exact ⟨e, by simp [guardedClose, hb, hec, applyFinally]⟩
      · exact ⟨ec, by simp [guardedClose, hb, hec, applyFinally]⟩
  · exact ⟨.nameError, by simp [guardedClose, hb, applyFinally]⟩

/-- A cycle whose connection attempt raises, or whose body — channel
open, queue declare, job load or any publish — propagates an error,
always ends with an escaping exception: the close guards suppress at
most ChannelClosed and ConnectionClosed, and an unbound variable makes
a finally block itself raise NameError. -/
theorem runCycle_body_raise (parse : String → Except PyError Json)
    (jf : Option String) (wq : String) (o : CycleOracle) (st : LoopState)
    (e : PyError)
    (h : o.connect = .raise e ∨
      (o.connect = .ok ∧
        (innerBody parse jf wq o { st with connBound := true }).1 =
          some e)) :
    ∃ e2, (runCycle parse jf wq o st).1 = some e2 := by
  rcases h with h | ⟨hc, hb⟩
  · simp only [runCycle, h]
    exact applyFinally_guardedClose_some e _ _ _ _
  · obtain ⟨e1, he1⟩ := applyFinally_guardedClose_some e
      ((innerBody parse jf wq o { st with connBound := true }).2.1).chanBound
      o.channelClose .channelClosed .closeChannelCall
    have hib : (innerBlock parse jf wq o { st with connBound := true }).1 =
        some e1 := by
      simp only [innerBlock, hb]
      exact he1
    obtain ⟨e2, he2⟩ := applyFinally_guardedClose_some e1
      ((innerBlock parse jf wq o
        { st with connBound := true }).2.1).connBound
      o.connectionClose .connectionClosed .closeConnectionCall
    refine ⟨e2, ?_⟩
    simp only [runCycle, hc]
    rw [hib]
    exact he2

/-- C1 counterexample: with a valid configuration and a first cycle whose
connection attempt raises AMQPConnectionError, the process does not wait
and retry — main terminates, raising NameError (the unbound connection
variable in the finally block replaces the original error), with no
further cycle and no wait. -/
theorem connection_error_kills_process :
    Proto.main envFull parseNull none [oracleConnFail] fsEmpty =
      (.raised .nameError, [.log "Beginning Processing"]) := rfl

/-- C1 amended: every failure establishing or using the broker
connection or channel during a cycle — the connect call raising, or the
cycle body (channel open, queue declare, job load, any publish)
propagating an error — is not caught by the loop: after the best-effort
close attempts an exception always escapes the cycle, and the while
loop exits immediately with it — no fixed delay is waited, no retry
happens, and the rest of the schedule is never consulted. -/
theorem connection_failure_exits_loop (parse : String → Except PyError Json)
    (jf : Option String) (wq : String) (o : CycleOracle)
    (rest : List CycleOracle) (st : LoopState) (e : PyError)
    (h : o.connect = .raise e ∨
      (o.connect = .ok ∧
        (innerBody parse jf wq o { st with connBound := true }).1 =
          some e)) :
    ∃ e2, (runCycle parse jf wq o st).1 = some e2 ∧
      runLoop parse jf wq (o :: rest) st =
        (.exited e2, (runCycle parse jf wq o st).2.1,
          (runCycle parse jf wq o st).2.2) := by
  obtain ⟨e2, he⟩ := runCycle_body_raise parse jf wq o st e h
  exact ⟨e2, he, by simp only [runLoop, he]⟩

/-- C1 amended witness at a failure using the connection: the channel
open raises, the cycle ends with an escaping exception and the loop
exits without consulting the rest of the schedule. -/
theorem connection_failure_exits_loop_witness :
    ∃ e2, (runCycle parseNull none "work" oracleChannelFail
        ⟨fsEmpty, false, false⟩).1 = some e2 ∧
      runLoop parseNull none "work" [oracleChannelFail]
          ⟨fsEmpty, false, false⟩ =
        (.exited e2,
          (runCycle parseNull none "work" oracleChannelFail
            ⟨fsEmpty, false, false⟩).2.1,
          (runCycle parseNull none "work" oracleChannelFail
            ⟨fsEmpty, false, false⟩).2.2) :=
  connection_failure_exits_loop parseNull none "work" oracleChannelFail []
    ⟨fsEmpty, false, false⟩ .amqpConnectionError (Or.inr ⟨rfl, rfl⟩)

/-! ## C3 -/

/-- The inner cycle body never changes whether the connection variable is
bound. -/
theorem innerBody_connBound (parse : String → Except PyError Json)
    (jf : Option String) (wq : String) (o : CycleOracle) (st : LoopState) :
    ((innerBody parse jf wq o st).2.1).connBound = st.connBound := by
  simp only [innerBody]
  split
  · rfl
  · split
    · rfl
    · split
      · rfl
      · rfl

/-- When connection.channel() succeeds, the channel variable is bound in
the state the inner body hands to its finally. -/
theorem innerBody_chanBound_of_ok (parse : String → Except PyError Json)
    (jf : Option String) (wq : String) (o : CycleOracle) (st : LoopState)
    (h : o.openChannel = .ok) :
    ((innerBody parse jf wq o st).2.1).chanBound = true := by
  simp only [innerBody, h]
  split
  · rfl
  · split
    · rfl
    · rfl

/-- A finally block that raises nothing changes nothing. -/
theorem applyFinally_none (x : Option PyError) : applyFinally x none = x :=
  rfl

/-- C3 counterexample: the cycle body raises the parse error
JSONDecodeError, the channel close raises StreamLostError — which the
except clause (it only suppresses ChannelClosed) does not catch — and the
process terminates raising StreamLostError: an error during close was
neither suppressed nor prevented from masking the body's error. -/
theorem close_error_masks_body_error :
    (innerBody parseFail (some "jobs.json") "work" oracleCloseFail
      ⟨fsJobs, true, false⟩).1 = some .jsonDecodeError ∧
    Proto.main envFull parseFail (some "jobs.json") [oracleCloseFail]
      fsJobs =
      (.raised .streamLostError,
        [.log "Beginning Processing", .closeChannelCall,
          .closeConnectionCall]) :=
  ⟨rfl, rfl⟩

/-- C3 amended: on every exit path of a cycle in which the connection and
channel were opened, the channel close is attempted first and the
connection close second; when the close calls behave benignly — each
succeeds or raises exactly the one exception class its except clause
suppresses (ChannelClosed for the channel, ConnectionClosed for the
connection) — the cycle's escaping error is exactly the body's error, so
cleanup neither masks nor replaces it.  Close errors of any other class
are NOT suppressed and do replace the body's error. -/
theorem cleanup_benign_preserves_error (parse : String → Except PyError Json)
    (jf : Option String) (wq : String) (o : CycleOracle) (st : LoopState)
    (hconn : o.connect = .ok) (hchan : o.openChannel = .ok)
    (hcc : o.channelClose = .ok ∨ o.channelClose = .raise .channelClosed)
    (hkc : o.connectionClose = .ok ∨
      o.connectionClose = .raise .connectionClosed) :
    (runCycle parse jf wq o st).1 =
      (innerBody parse jf wq o { st with connBound := true }).1 ∧
    (runCycle parse jf wq o st).2.2 =
      (innerBody parse jf wq o { st with connBound := true }).2.2 ++
        [Event.closeChannelCall, Event.closeConnectionCall] := by
  have hcb : ((innerBody parse jf wq o
      { st with connBound := true }).2.1).chanBound = true :=
    innerBody_chanBound_of_ok parse jf wq o _ hchan
  have hvb : ((innerBody parse jf wq o
      { st with connBound := true }).2.1).connBound = true := by
    rw [innerBody_connBound]
  have hgc : guardedClose true o.channelClose PyError.channelClosed
      Event.closeChannelCall = (none, [Event.closeChannelCall]) := by
    rcases hcc with h | h <;> simp [guardedClose, h]
  have hgk : guardedClose true o.connectionClose PyError.connectionClosed
      Event.closeConnectionCall = (none, [Event.closeConnectionCall]) := by
    rcases hkc with h | h <;> simp [guardedClose, h]
  constructor <;>
    simp [runCycle, innerBlock, hconn, hcb, hvb, hgc, hgk, applyFinally_none]

/-- C3 amended witness: a benign run (already-closed channel on close)
with one rejected publish keeps its body error (none) and shows the
channel close event before the connection close event. -/
theorem cleanup_benign_preserves_error_witness :
    (runCycle parseTwoJobs (some "jobs.json") "work" oracleReject
      ⟨fsJobs, false, false⟩).1 =
      (innerBody parseTwoJobs (some "jobs.json") "work" oracleReject
        ⟨fsJobs, true, false⟩).1 ∧
    (runCycle parseTwoJobs (some "jobs.json") "work" oracleReject
      ⟨fsJobs, false, false⟩).2.2 =
      (innerBody parseTwoJobs (some "jobs.json") "work" oracleReject
        ⟨fsJobs, true, false⟩).2.2 ++
        [Event.closeChannelCall, Event.closeConnectionCall] :=
  cleanup_benign_preserves_error parseTwoJobs (some "jobs.json") "work"
    oracleReject ⟨fsJobs, false, false⟩ rfl rfl (Or.inl rfl) (Or.inl rfl)

/-! ## C4 -/

/-- C4 counterexample: a KeyboardInterrupt delivered during the second
basic_publish of a two-job batch is observed mid-cycle, not during the
wait: the cycle is aborted mid-publish (the second job's publish call is
cut short, no Queued Message for it, the sleep never runs), the close
guards run, the loop exits and the termination line is still logged. -/
theorem interrupt_observed_mid_publish :
    Proto.main envFull parseTwoJobs (some "jobs.json")
      [oracleInterruptMidPublish] fsJobs =
      (.finished,
        [.log "Beginning Processing",
          .publishCall ⟨"", "work", "1", 2, true⟩,
          .printed "Queued Message = 1",
          .publishCall ⟨"", "work", "2", 2, true⟩,
          .closeChannelCall, .closeConnectionCall,
          .log "Terminated Processing"]) := rfl

/-- C4 amended: a cancellation signal can be observed at any blocking
call of a cycle — including mid-publish — not only during the fixed
wait; wherever the KeyboardInterrupt escapes the loop body or the wait,
main exits the loop orderly: it returns normally (the interrupt is
caught) and the final event of the run is the Terminated Processing log
line. -/
theorem interrupt_terminates_orderly (env : List (String × String))
    (parse : String → Except PyError Json) (jf : Option String)
    (oracles : List CycleOracle) (fs : FS) (wq sq cs : String)
    (h1 : pyGetenvTruthy env work_queue_var = some wq)
    (h2 : pyGetenvTruthy env status_queue_var = some sq)
    (h3 : get_messaging_connection_string env = .ok cs)
    (h4 : (runLoop parse jf wq oracles ⟨fs, false, false⟩).1 =
      .exited .keyboardInterrupt) :
    (Proto.main env parse jf oracles fs).1 = .finished ∧
    (Proto.main env parse jf oracles fs).2.getLast? =
      some (.log "Terminated Processing") := by
  constructor
  · simp [Proto.main, h1, h2, h3, h4]
  · have hmain : (Proto.main env parse jf oracles fs).2 =
        (Event.log "Beginning Processing" ::
          (runLoop parse jf wq oracles ⟨fs, false, false⟩).2.2) ++
          [Event.log "Terminated Processing"] := by
      simp [Proto.main, h1, h2, h3, h4]
    rw [hmain, List.getLast?_concat]

/-- C4 amended witness: a run whose wait is interrupted finishes with the
termination log line last. -/
theorem interrupt_terminates_orderly_witness :
    (Proto.main envFull parseNull none [oracleSleepInterrupt] fsEmpty).1 =
      .finished ∧
    (Proto.main envFull parseNull none [oracleSleepInterrupt]
      fsEmpty).2.getLast? = some (.log "Terminated Processing") :=
  interrupt_terminates_orderly envFull parseNull none [oracleSleepInterrupt]
    fsEmpty "work" "status" "amqp://u:p@h:5672" rfl rfl rfl rfl

/-! ## C7 -/

/-- Anything the close guards emit is the single close-call event. -/
theorem guardedClose_mem (bound : Bool) (res : PyResult) (sup : PyError)
    (ev x : Event) (h : x ∈ (guardedClose bound res sup ev).2) : x = ev := by
  unfold guardedClose at h
  by_cases hb : bound
  · rw [if_pos hb] at h
    cases res with
    | ok => simpa using h
    | raise e => simpa using h
  · rw [if_neg hb] at h
    simp at h

/-- Every publish call the for-loop issues is built by mkPublishCall for
some job of the batch. -/
theorem publishJobs_calls_shape (wq : String)
    (pub : Nat → Except PyError Bool) (i : Nat) (jobs : List Json)
    (c : PublishCall)
    (h : Event.publishCall c ∈ (publishJobs wq pub i jobs).2) :
    ∃ j, c = mkPublishCall wq j := by
  induction jobs generalizing i with
  | nil => simp [publishJobs] at h
  | cons j rest ih =>
    cases hp : pub i with
    | error e =>
      simp [publishJobs, hp] at h
      exact ⟨j, h⟩
    | ok b =>
      cases b with
      | false =>
        simp [publishJobs, hp] at h
        rcases h with h | h
        · exact ⟨j, h⟩
        · exact ih (i + 1) h
      | true =>
        simp [publishJobs, hp] at h
        rcases h with h | h
        · exact ⟨j, h⟩
        · exact ih (i + 1) h

/-- Every publish call in the inner cycle body is built by
mkPublishCall. -/
theorem innerBody_calls_shape (parse : String → Except PyError Json)
    (jf : Option String) (wq : String) (o : CycleOracle) (st : LoopState)
    (c : PublishCall)
    (h : Event.publishCall c ∈ (innerBody parse jf wq o st).2.2) :
    ∃ j, c = mkPublishCall wq j := by
  simp only [innerBody] at h
  split at h
  · simp at h
  · split at h
    · simp at h
    · split at h
      · simp at h
      · exact publishJobs_calls_shape _ _ _ _ _ h

/-- Every publish call in the inner try/finally is built by
mkPublishCall. -/
theorem innerBlock_calls_shape (parse : String → Except PyError Json)
    (jf : Option String) (wq : String) (o : CycleOracle) (st : LoopState)
    (c : PublishCall)
    (h : Event.publishCall c ∈ (innerBlock parse jf wq o st).2.2) :
    ∃ j, c = mkPublishCall wq j := by
  simp only [innerBlock] at h
  rw [List.mem_append] at h
  rcases h with h | h
  · exact innerBody_calls_shape _ _ _ _ _ _ h
  · have hev := guardedClose_mem _ _ _ _ _ h
    simp at hev

/-- Every publish call in a full cycle is built by mkPublishCall. -/
theorem runCycle_calls_shape (parse : String → Except PyError Json)
    (jf : Option String) (wq : String) (o : CycleOracle) (st : LoopState)
    (c : PublishCall)
    (h : Event.publishCall c ∈ (runCycle parse jf wq o st).2.2) :
    ∃ j, c = mkPublishCall wq j := by
  simp only [runCycle] at h
  rw [List.mem_append] at h
  rcases h with h | h
  · cases hc : o.connect with
    | raise e => rw [hc] at h; simp at h
    | ok => rw [hc] at h; exact innerBlock_calls_shape _ _ _ _ _ _ h
  · have hev := guardedClose_mem _ _ _ _ _ h
    simp at hev

/-- Every publish call across a whole run of the loop is built by
mkPublishCall. -/
theorem runLoop_calls_shape (parse : String → Except PyError Json)
    (jf : Option String) (wq : String) (oracles : List CycleOracle)
    (st : LoopState) (c : PublishCall)
    (h : Event.publishCall c ∈ (runLoop parse jf wq oracles st).2.2) :
    ∃ j, c = mkPublishCall wq j := by
  induction oracles generalizing st with
  | nil => simp [runLoop] at h
  | cons o rest ih =>
    simp only [runLoop] at h
    cases hc : (runCycle parse jf wq o st).1 with
    | some e =>
      rw [hc] at h
      exact runCycle_calls_shape _ _ _ _ _ _ h
    | none =>
      rw [hc] at h
      cases hs : o.sleepResult with
      | raise e =>
        rw [hs] at h
        exact runCycle_calls_shape _ _ _ _ _ _ h
      | ok =>
        rw [hs] at h
        simp only [List.mem_append] at h
        rcases h with h | h
        · exact runCycle_calls_shape _ _ _ _ _ _ h
        · exact ih _ h

/-- Every publish call in a run of main is built by mkPublishCall with
the configured work-queue name as routing key. -/
theorem main_calls_shape (env : List (String × String))
    (parse : String → Except PyError Json) (jf : Option String)
    (oracles : List CycleOracle) (fs : FS) (c : PublishCall)
    (h : Event.publishCall c ∈ (Proto.main env parse jf oracles fs).2) :
    ∃ wq j, pyGetenvTruthy env work_queue_var = some wq ∧
      c = mkPublishCall wq j := by
  unfold Proto.main at h
  split at h
  · simp at h
  · split at h
    · simp at h
    · split at h
      · simp at h
      · rename_i swq wq hw ssq sq hs scs cs hg
        refine ⟨wq, ?_⟩
        dsimp only at h
        split at h
        · simp only [List.mem_cons] at h
          rcases h with h | h
          · exact absurd h (by simp)
          · obtain ⟨j, hj⟩ := runLoop_calls_shape _ _ _ _ _ _ h
            exact ⟨j, hw, hj⟩
        · split at h
          · simp only [List.mem_cons, List.mem_append] at h
            rcases h with h | h | h
            · exact absurd h (by simp)
            · obtain ⟨j, hj⟩ := runLoop_calls_shape _ _ _ _ _ _ h
              exact ⟨j, hw, hj⟩
            · exact absurd h (by simp)
          · simp only [List.mem_cons] at h
            rcases h with h | h
            · exact absurd h (by simp)
            · obtain ⟨j, hj⟩ := runLoop_calls_shape _ _ _ _ _ _ h
              exact ⟨j, hw, hj⟩

/-- C7: every job published in any run of main is serialized by the
JSON encoding that preserves non-ASCII characters unescaped
(ensure_ascii=False: every character of code point 128 or above passes
through unchanged), and is published to the configured work queue with
persistent delivery marking (delivery_mode 2), the mandatory-routing
requirement set, and the default exchange. -/
theorem publish_serialization_and_marking (env : List (String × String))
    (parse : String → Except PyError Json) (jf : Option String)
    (oracles : List CycleOracle) (fs : FS) (c : PublishCall)
    (h : Event.publishCall c ∈ (Proto.main env parse jf oracles fs).2) :
    c.delivery_mode = 2 ∧ c.mandatory = true ∧ c.exchange = "" ∧
    (∃ wq j, pyGetenvTruthy env work_queue_var = some wq ∧
      c.routing_key = wq ∧ c.body = Json.dumps j) ∧
    (∀ ch : Char, 128 ≤ ch.toNat →
      escapeJsonChar ch = String.singleton ch) := by
  obtain ⟨wq, j, hwq, hc⟩ := main_calls_shape env parse jf oracles fs c h
  subst hc
  refine ⟨rfl, rfl, rfl, ⟨wq, j, hwq, rfl, rfl⟩, ?_⟩
  intro ch hch
  unfold escapeJsonChar
  split_ifs with h1 h2 h3 h4 h5 h6 h7 h8
  · rw [h1] at hch; exact absurd hch (by decide)
  · rw [h2] at hch; exact absurd hch (by decide)
  · rw [h3] at hch; exact absurd hch (by decide)
  · rw [h4] at hch; exact absurd hch (by decide)
  · rw [h5] at hch; exact absurd hch (by decide)
  · omega
  · omega
  · omega
  · rfl

/-- C7 witness: the first publish call of the concrete rejected-then-
routed run carries body 1, delivery_mode 2, mandatory routing, on the
configured queue. -/
theorem publish_serialization_and_marking_witness :
    (⟨"", "work", "1", 2, true⟩ : PublishCall).delivery_mode = 2 ∧
    (⟨"", "work", "1", 2, true⟩ : PublishCall).mandatory = true ∧
    (⟨"", "work", "1", 2, true⟩ : PublishCall).exchange = "" ∧
    (∃ wq j, pyGetenvTruthy envFull work_queue_var = some wq ∧
      (⟨"", "work", "1", 2, true⟩ : PublishCall).routing_key = wq ∧
      (⟨"", "work", "1", 2, true⟩ : PublishCall).body = Json.dumps j) ∧
    (∀ ch : Char, 128 ≤ ch.toNat →
      escapeJsonChar ch = String.singleton ch) :=
  publish_serialization_and_marking envFull parseTwoJobs (some "jobs.json")
    [oracleReject] fsJobs ⟨"", "work", "1", 2, true⟩ (by decide)

/-! ## C8 -/

/-- Is an event a basic_publish call? -/
def isPublishEvent : Event → Bool
  | .publishCall _ => true
  | _ => false

/-- When every publish result in a batch is a broker verdict (routed or
returned, never an exception), the for-loop finishes without raising,
makes exactly one publish call per job, and logs one Returned Message
failure line for every returned job. -/
theorem publishJobs_verdicts (wq : String) (pub : Nat → Except PyError Bool)
    (k : Nat) (jobs : List Json)
    (hok : ∀ i, i < jobs.length → ∃ b, pub (k + i) = .ok b) :
    (publishJobs wq pub k jobs).1 = none ∧
    ((publishJobs wq pub k jobs).2.filter isPublishEvent).length =
      jobs.length ∧
    ∀ i (hi : i < jobs.length), pub (k + i) = .ok false →
      Event.printed ("Returned Message = " ++ Json.dumps (jobs.get ⟨i, hi⟩))
        ∈ (publishJobs wq pub k jobs).2 := by
  induction jobs generalizing k with
  | nil =>
    refine ⟨rfl, rfl, ?_⟩
    intro i hi
    exact absurd hi (by simp)
  | cons j rest ih =>
    obtain ⟨b, hb⟩ := hok 0 (by simp)
    rw [Nat.add_zero] at hb
    have hok2 : ∀ i, i < rest.length → ∃ b2, pub (k + 1 + i) = .ok b2 := by
      intro i hi
      obtain ⟨b2, hb2⟩ := hok (i + 1) (by simpa using Nat.succ_lt_succ hi)
      refine ⟨b2, ?_⟩
      rw [show k + 1 + i = k + (i + 1) by omega]
      exact hb2
    obtain ⟨e1, l1, m1⟩ := ih (k + 1) hok2
    cases b with
    | true =>
      refine ⟨?_, ?_, ?_⟩
      · simp [publishJobs, hb, e1]
      · simp [publishJobs, hb, isPublishEvent, l1]
      · intro i hi hf
        cases i with
        | zero =>
          rw [Nat.add_zero] at hf
          rw [hb] at hf
          exact absurd hf (by simp)
        | succ i2 =>
          have hi2 : i2 < rest.length := Nat.lt_of_succ_lt_succ hi
          have hf2 : pub (k + 1 + i2) = .ok false := by
            rw [show k + 1 + i2 = k + (i2 + 1) by omega]
            exact hf
          have hm := m1 i2 hi2 hf2
          simp only [publishJobs, hb, List.get_cons_succ]
          exact List.mem_cons_of_mem _ (List.mem_cons_of_mem _ hm)
    | false =>
      refine ⟨?_, ?_, ?_⟩
      · simp [publishJobs, hb, e1]
      · simp [publishJobs, hb, isPublishEvent, l1]
      · intro i hi hf
        cases i with
        | zero =>
          simp [publishJobs, hb, List.get]
        | succ i2 =>
          have hi2 : i2 < rest.length := Nat.lt_of_succ_lt_succ hi
          have hf2 : pub (k + 1 + i2) = .ok false := by
            rw [show k + 1 + i2 = k + (i2 + 1) by omega]
            exact hf
          have hm := m1 i2 hi2 hf2
          simp only [publishJobs, hb, List.get_cons_succ]
          exact List.mem_cons_of_mem _ (List.mem_cons_of_mem _ hm)

/-- C8: in a cycle where the broker returns a verdict for every publish
call (routed or returned, no exception), a Rejected verdict is terminal
for its job and harmless to the loop: the cycle raises nothing; the loop
does not terminate but continues with the rest of the schedule; every
job — including each rejected one — receives exactly one publish call
(so no rejected job is retried or requeued); and for each rejected job a
Returned Message failure log line is emitted. -/
theorem rejected_publish_only_logs (parse : String → Except PyError Json)
    (jf : Option String) (wq : String) (o : CycleOracle)
    (rest : List CycleOracle) (st : LoopState) (jobs : List Json)
    (hconn : o.connect = .ok) (hchan : o.openChannel = .ok)
    (hdecl : o.declareQueue = .ok)
    (hcc : o.channelClose = .ok) (hkc : o.connectionClose = .ok)
    (hsleep : o.sleepResult = .ok)
    (hjobs : (get_jobs parse st.fs jf).1 = .ok jobs)
    (hok : ∀ i, i < jobs.length → ∃ b, o.publish i = .ok b) :
    (runCycle parse jf wq o st).1 = none ∧
    (runLoop parse jf wq (o :: rest) st).1 =
      (runLoop parse jf wq rest ((runCycle parse jf wq o st).2.1)).1 ∧
    (((runCycle parse jf wq o st).2.2).filter isPublishEvent).length =
      jobs.length ∧
    ∀ i (hi : i < jobs.length), o.publish i = .ok false →
      Event.printed ("Returned Message = " ++ Json.dumps (jobs.get ⟨i, hi⟩))
        ∈ (runCycle parse jf wq o st).2.2 := by
  have hok0 : ∀ i, i < jobs.length → ∃ b, o.publish (0 + i) = .ok b := by
    intro i hi
    simpa [Nat.zero_add] using hok i hi
  obtain ⟨e1, l1, m1⟩ := publishJobs_verdicts wq o.publish 0 jobs hok0
  have hcyc : runCycle parse jf wq o st =
      (none, ⟨(get_jobs parse st.fs jf).2, true, true⟩,
        (publishJobs wq o.publish 0 jobs).2 ++
          [Event.closeChannelCall, Event.closeConnectionCall]) := by
    simp [runCycle, innerBlock, innerBody, hconn, hchan, hdecl, hjobs,
      guardedClose, hcc, hkc, applyFinally, e1]
  have h1 : (runCycle parse jf wq o st).1 = none := by rw [hcyc]
  refine ⟨h1, ?_, ?_, ?_⟩
  · simp only [runLoop, h1, hsleep]
  · rw [hcyc]
    simp [List.filter_append, isPublishEvent, l1]
  · intro i hi hf
    rw [hcyc]
    have hm := m1 i hi (by simpa [Nat.zero_add] using hf)
    exact List.mem_append_left _ hm

/-- C8 witness: the concrete run whose first job is returned unroutable
and whose second is routed. -/
theorem rejected_publish_only_logs_witness :
    (runCycle parseTwoJobs (some "jobs.json") "work" oracleReject
      ⟨fsJobs, false, false⟩).1 = none ∧
    (runLoop parseTwoJobs (some "jobs.json") "work" [oracleReject]
      ⟨fsJobs, false, false⟩).1 =
      (runLoop parseTwoJobs (some "jobs.json") "work" []
        ((runCycle parseTwoJobs (some "jobs.json") "work" oracleReject
          ⟨fsJobs, false, false⟩).2.1)).1 ∧
    (((runCycle parseTwoJobs (some "jobs.json") "work" oracleReject
      ⟨fsJobs, false, false⟩).2.2).filter isPublishEvent).length =
      [Json.num 1, Json.num 2].length ∧
    ∀ i (hi : i < [Json.num 1, Json.num 2].length),
      oracleReject.publish i = .ok false →
      Event.printed ("Returned Message = " ++
          Json.dumps ([Json.num 1, Json.num 2].get ⟨i, hi⟩))
        ∈ (runCycle parseTwoJobs (some "jobs.json") "work" oracleReject
          ⟨fsJobs, false, false⟩).2.2 :=
  rejected_publish_only_logs parseTwoJobs (some "jobs.json") "work"
    oracleReject [] ⟨fsJobs, false, false⟩ [Json.num 1, Json.num 2]
    rfl rfl rfl rfl rfl rfl rfl (fun i _ => ⟨i != 0, rfl⟩)
